import Mathlib

/-!
Verification of the killshill dashboard services against their specification.
Shallow embedding of the Python sources under `src/`: pure fragments become
Lean functions over `ℤ`/`ℚ`/`String`; IEEE double arithmetic is modelled as
exact rational arithmetic, and the single transcendental float expression
`(alpha/2) ** (1/trials)` is threaded through as a parameter.
-/

unseal Rat.add Rat.sub Rat.mul Rat.inv

namespace Stats

/-- Python `round(x, ndigits)` rounds half to even.  `roundHalfEven x` is the
integer nearest `x`, ties going to the even integer. -/
def roundHalfEven (x : ℚ) : ℤ :=
  let n := ⌊x⌋
  let f := x - n
  if f < 1/2 then n
  else if 1/2 < f then n + 1
  else if n % 2 = 0 then n else n + 1

/-- Python `round(x, d)` on an exact rational. -/
def pyRound (x : ℚ) (d : ℕ) : ℚ :=
  (roundHalfEven (x * 10 ^ d) : ℚ) / 10 ^ d

/-- The loop of `binom_cdf` in `src/dashboard/utils/statistics.py`:
starting from `prob = cdf = (1-p)^n`, iterate
`prob *= (p/(1-p)) * (n-i+1)/i; cdf += prob` for `i = 1..m`.
Returns the pair `(prob, cdf)` after `m` iterations. -/
def binomLoop (n : ℕ) (p : ℚ) : ℕ → ℚ × ℚ
  | 0 => ((1 - p) ^ n, (1 - p) ^ n)
  | m + 1 =>
    let s := binomLoop n p m
    let i : ℚ := (m : ℚ) + 1
    let prob := s.1 * (p / (1 - p)) * ((n : ℚ) - i + 1) / i
    (prob, s.2 + prob)

/-- `binom_cdf(k, n, p)` from `src/dashboard/utils/statistics.py` (the helper
nested inside `clopper_pearson_interval`), in exact rational arithmetic.
Branch order follows the source: `k < 0 → 0.0`, `k ≥ n → 1.0`,
`p ≤ 0 → 1.0`, `p ≥ 1 → 0.0`, else the PMF recurrence summed for
`i = 1..k` and clamped to `[0, 1]`.  In the remaining branch `0 ≤ k < n`
forces `n ≥ 1`, so `(1-p) ** n` is `(1-p) ^ n.toNat`. -/
def binom_cdf (k n : ℤ) (p : ℚ) : ℚ :=
  if k < 0 then 0
  else if n ≤ k then 1
  else if p ≤ 0 then 1
  else if 1 ≤ p then 0
  else min (max (binomLoop n.toNat p k.toNat).2 0) 1

/-- One bisection step of `solve_lower`: state is `(lo, hi)`. -/
def lowerStep (successes trials : ℤ) (alpha : ℚ) (s : ℚ × ℚ) : ℚ × ℚ :=
  let mid := (s.1 + s.2) / 2
  let tail := 1 - binom_cdf (successes - 1) trials mid
  if alpha / 2 < tail then (s.1, mid) else (mid, s.2)

/-- `solve_lower()` from `clopper_pearson_interval`: 60 bisection iterations
starting from `(0, 1)`, returning the final `hi`. -/
def solve_lower (successes trials : ℤ) (alpha : ℚ) : ℚ :=
  ((lowerStep successes trials alpha)^[60] (0, 1)).2

/-- One bisection step of `solve_upper`: state is `(lo, hi)`. -/
def upperStep (successes trials : ℤ) (alpha : ℚ) (s : ℚ × ℚ) : ℚ × ℚ :=
  let mid := (s.1 + s.2) / 2
  let cdf := binom_cdf successes trials mid
  if 1 - alpha / 2 < cdf then (mid, s.2) else (s.1, mid)

/-- `solve_upper()` from `clopper_pearson_interval`: 60 bisection iterations
against the target `1 - alpha/2`, returning the final `lo`. -/
def solve_upper (successes trials : ℤ) (alpha : ℚ) : ℚ :=
  ((upperStep successes trials alpha)^[60] (0, 1)).1

/-- `clopper_pearson_interval(successes, trials, alpha)` from
`src/dashboard/utils/statistics.py`, returning percentages rounded to one
decimal.  The float expression `(alpha/2) ** (1/trials)` is irrational, so it
is supplied as the parameter `root trials`; theorems constrain it only by
`0 ≤ root t ≤ 1`, which any correctly-rounded float evaluation satisfies.
The `0 < successes < trials` branch involves no such power and is exact. -/
def clopper_pearson_interval (root : ℤ → ℚ) (successes trials : ℤ)
    (alpha : ℚ := 1/20) : ℚ × ℚ :=
  if trials ≤ 0 ∨ successes < 0 ∨ trials < successes then (0, 0)
  else if successes = 0 then
    (pyRound (0 * 100) 1, pyRound ((1 - root trials) * 100) 1)
  else if successes = trials then
    (pyRound (root trials * 100) 1, pyRound (1 * 100) 1)
  else
    (pyRound (solve_lower successes trials alpha * 100) 1,
     pyRound (solve_upper successes trials alpha * 100) 1)

end Stats

/-! ## String primitives

List-based string helpers that the embeddings use in place of the core
`String` functions (whose byte-position implementations do not reduce in the
kernel).  Lowercasing and stripping are ASCII, which covers the values these
services compare (platform names, categories, URLs, status strings). -/

namespace PyStr

/-- ASCII lowercasing of one character. -/
def lowerChar (c : Char) : Char :=
  if 'A' ≤ c && c ≤ 'Z' then Char.ofNat (c.toNat + 32) else c

/-- Python `s.lower()` (ASCII). -/
def lower (s : String) : String := String.mk (s.data.map lowerChar)

/-- ASCII whitespace, as stripped by Python `str.strip()`. -/
def isSpaceChar (c : Char) : Bool :=
  c = ' ' || c = '\t' || c = '\n' || c = '\r'

/-- Python `s.strip()` (ASCII whitespace). -/
def strip (s : String) : String :=
  String.mk (((s.data.dropWhile isSpaceChar).reverse.dropWhile isSpaceChar).reverse)

/-- Decimal digit run to a natural number; `none` if empty or non-digit. -/
def digitsToNat (l : List Char) : Option ℕ :=
  if l.isEmpty then none
  else
    l.foldl
      (fun acc c =>
        match acc with
        | none => none
        | some n =>
          if '0' ≤ c && c ≤ '9' then some (n * 10 + (c.toNat - '0'.toNat)) else none)
      (some 0)

/-- Python `int(s)` on a plain optionally-signed decimal string
(`none` models the `ValueError` path). -/
def pyInt (s : String) : Option ℤ :=
  match s.data with
  | '-' :: rest => (digitsToNat rest).map (fun n => -(n : ℤ))
  | '+' :: rest => (digitsToNat rest).map (fun n => (n : ℤ))
  | l => (digitsToNat l).map (fun n => (n : ℤ))

/-- Lexicographic comparison of character lists. -/
def charListLe : List Char → List Char → Bool
  | [], _ => true
  | _ :: _, [] => false
  | a :: as_, b :: bs => if a < b then true else if b < a then false else charListLe as_ bs

/-- Lexicographic `≤` on strings, used for Python's string sorts. -/
def strLe (a b : String) : Bool := charListLe a.data b.data


/-- Stable insertion into a sorted list: `a` is placed before the first
element `b` with `le a b`, so an element inserted later never jumps ahead of
an equal one. -/
def insertOrd (le : α → α → Bool) (a : α) : List α → List α
  | [] => [a]
  | b :: t => if le a b then a :: b :: t else b :: insertOrd le a t

/-- Stable sort (insertion sort), modelling Python's stable `list.sort` /
`sorted` for a total preorder comparator `le a b = (key a ≤ key b)`;
descending sorts pass the flipped comparator, which is how
`reverse=True` keeps ties in encounter order. -/
def sortBy (le : α → α → Bool) : List α → List α
  | [] => []
  | a :: t => insertOrd le a (sortBy le t)

end PyStr

/-! ## Async auto-approval service

Embedding of `src/dashboard/services/auto_approval.py`
(`AutoApprovalService`).  Python truthiness on optional numeric/string
fields (`if not x`) is modelled by the `truthy…` helpers: `None`, `0` and
`""` are falsy. -/

namespace AutoApproval

/-- Python truthiness of an optional integer: `None` and `0` are falsy. -/
def truthyInt : Option ℤ → Bool
  | none => false
  | some n => n != 0

/-- Python truthiness of an optional rational: `None` and `0.0` are falsy. -/
def truthyRat : Option ℚ → Bool
  | none => false
  | some q => q != 0

/-- Python truthiness of an optional string: `None` and `""` are falsy. -/
def truthyStr : Option String → Bool
  | none => false
  | some s => !s.isEmpty

/-- `charsContain needle l` decides whether `needle` occurs as a contiguous
run inside `l`. -/
def charsContain (needle : List Char) : List Char → Bool
  | [] => needle.isEmpty
  | c :: t => needle.isPrefixOf (c :: t) || charsContain needle t

/-- Python `needle in hay` on strings (substring containment). -/
def strContains (hay needle : String) : Bool :=
  charsContain needle.toList hay.toList

/-- `VerificationResult` from `src/dashboard/services/platform_verifier.py`. -/
structure VerificationResult where
  is_valid : Bool
  actual_followers : Option ℤ
  actual_name : Option String
  account_age_days : Option ℤ
  is_verified : Bool
  engagement_rate : Option ℚ
  error_message : Option String
  confidence_score : ℤ
  deriving DecidableEq

/-- The fields of an `InfluencerSubmission` row read by the async
auto-approval service. -/
structure Submission where
  follower_count : Option ℤ
  channel_name : String
  author_name : String
  url : String
  platform : String
  deriving DecidableEq

/-- `AutoApprovalService.MIN_CONFIDENCE_SCORE`
(settings default `AUTO_APPROVAL_MIN_CONFIDENCE = 70`). -/
def MIN_CONFIDENCE_SCORE : ℤ := 70

/-- `AutoApprovalService.MIN_FOLLOWERS`
(settings default `AUTO_APPROVAL_MIN_FOLLOWERS = 1000`). -/
def MIN_FOLLOWERS : ℤ := 1000

/-- `AutoApprovalService.MAX_FOLLOWER_VARIANCE`
(settings default `AUTO_APPROVAL_MAX_VARIANCE = 0.3`). -/
def MAX_FOLLOWER_VARIANCE : ℚ := 3/10

/-- `AutoApprovalService._calculate_follower_accuracy_score`. -/
def calculate_follower_accuracy_score (submission : Submission)
    (verification : VerificationResult) : ℤ :=
  if !truthyInt verification.actual_followers ||
     !truthyInt submission.follower_count then 30
  else
    let actual := verification.actual_followers.getD 0
    let submitted := submission.follower_count.getD 0
    if actual = 0 ∨ submitted = 0 then 0
    else
      let variance : ℚ := |(actual : ℚ) - (submitted : ℚ)| / ((max actual submitted : ℤ) : ℚ)
      if variance ≤ 5/100 then 100
      else if variance ≤ 10/100 then 80
      else if variance ≤ 20/100 then 60
      else if variance ≤ 30/100 then 40
      else if variance ≤ 50/100 then 20
      else 0

/-- `AutoApprovalService._calculate_account_age_score`. -/
def calculate_account_age_score (verification : VerificationResult) : ℤ :=
  if !truthyInt verification.account_age_days then 50
  else
    let age_days := verification.account_age_days.getD 0
    if age_days ≥ 730 then 100
    else if age_days ≥ 365 then 80
    else if age_days ≥ 180 then 60
    else if age_days ≥ 90 then 40
    else if age_days ≥ 30 then 20
    else 0

/-- `AutoApprovalService._calculate_engagement_score`. -/
def calculate_engagement_score (verification : VerificationResult) : ℤ :=
  if !truthyRat verification.engagement_rate then 50
  else
    let rate := verification.engagement_rate.getD 0
    if rate ≥ 5 then 100
    else if rate ≥ 3 then 80
    else if rate ≥ 3/2 then 60
    else if rate ≥ 1/2 then 40
    else 20

/-- `AutoApprovalService._is_suspicious_url`. -/
def is_suspicious_url (url : String) : Bool :=
  ["bit.ly", "tinyurl", "goo.gl", "suspicious-domain"].any
    (fun indicator => strContains (PyStr.lower url) indicator)

/-- `AutoApprovalService._has_naming_inconsistencies`. -/
def has_naming_inconsistencies (submission : Submission)
    (verification : VerificationResult) : Bool :=
  if !truthyStr verification.actual_name || submission.channel_name.isEmpty then false
  else
    let actual_lower := PyStr.lower (verification.actual_name.getD "")
    let submitted_lower := PyStr.lower submission.channel_name
    !(strContains submitted_lower actual_lower || strContains actual_lower submitted_lower)

/-- `AutoApprovalService._apply_risk_penalties`; `recent_submissions` is the
count of the submitter's submissions within the trailing seven days that the
source reads from the database. -/
def apply_risk_penalties (submission : Submission)
    (verification : VerificationResult) (recent_submissions : ℕ)
    (base_score : ℚ) : ℚ :=
  let p1 : ℚ := if recent_submissions > 3 then 20 else 0
  let p2 : ℚ := if is_suspicious_url submission.url then 15 else 0
  let p3 : ℚ := if has_naming_inconsistencies submission verification then 10 else 0
  let p4 : ℚ := if !verification.is_valid then 30 else 0
  max (base_score - (p1 + p2 + p3 + p4)) 0

/-- `AutoApprovalService._calculate_approval_score`: the weighted composite,
risk penalties applied, truncated to an integer and capped at 100
(`min(int(total_score), 100)`; the total is non-negative, so Python's
truncation toward zero is the floor). -/
def calculate_approval_score (submission : Submission)
    (verification : VerificationResult) (recent_submissions : ℕ) : ℤ :=
  let verification_score : ℤ :=
    if verification.is_valid then verification.confidence_score else 0
  let follower_score := calculate_follower_accuracy_score submission verification
  let age_score := calculate_account_age_score verification
  let platform_verification_score : ℤ := if verification.is_verified then 100 else 50
  let engagement_score := calculate_engagement_score verification
  let total_score : ℚ :=
    (verification_score : ℚ) * (4/10) + (follower_score : ℚ) * (25/100) +
    (age_score : ℚ) * (15/100) + (platform_verification_score : ℚ) * (1/10) +
    (engagement_score : ℚ) * (1/10)
  let total_score := apply_risk_penalties submission verification recent_submissions total_score
  min ⌊total_score⌋ 100

/-- The platform-specific confidence floors of
`AutoApprovalService._should_auto_approve` (`platform_checks`). -/
def platform_min_confidence (platform : String) : Option ℤ :=
  if platform = "Twitter" then some 60
  else if platform = "Telegram" then some 50
  else if platform = "YouTube" then some 65
  else if platform = "TikTok" then some 60
  else none

/-- `AutoApprovalService._should_auto_approve`. -/
def should_auto_approve (submission : Submission)
    (verification : VerificationResult) (approval_score : ℤ) : Bool :=
  if !verification.is_valid then false
  else if approval_score < MIN_CONFIDENCE_SCORE then false
  else if truthyInt verification.actual_followers &&
          verification.actual_followers.getD 0 < MIN_FOLLOWERS then false
  else if (truthyInt verification.actual_followers &&
           truthyInt submission.follower_count &&
           submission.follower_count.getD 0 > 0) &&
          (|(verification.actual_followers.getD 0 : ℚ) - (submission.follower_count.getD 0 : ℚ)| /
             (submission.follower_count.getD 0 : ℚ) > MAX_FOLLOWER_VARIANCE) then false
  else
    match platform_min_confidence submission.platform with
    | some floor_ => verification.confidence_score ≥ floor_
    | none => true

end AutoApproval

/-! ## Synchronous (payload-based) auto-approval service

Embedding of `src/dashboard/services/auto_approval_enhanced.py`
(`EnhancedAutoApprovalService.process_submission` and the helpers it
calls).  The integer fields of the payload hold the output of the
source's `_coerce_int` (a total coercion of the raw JSON value to an
integer, `0` on `None`/empty/unparsable input). -/

namespace Enhanced

/-- Python `a or b` on strings: `a` if non-empty, else `b`. -/
def pyOrStr (a b : String) : String := if a.isEmpty then b else a

/-- `EnhancedAutoApprovalService.SUPPORTED_PLATFORMS`. -/
def SUPPORTED_PLATFORMS : List String := ["tiktok", "twitter", "youtube", "telegram"]

/-- The submission payload dict handed to
`EnhancedAutoApprovalService.process_submission`. -/
structure SubmissionPayload where
  platform : String
  url : String
  username : String
  has_submitter : Bool
  category : String
  channel_name : String
  display_name : String
  followers : ℤ
  posts_count : ℤ
  verified : Bool
  mock_data : Bool
  verification_error : Option String
  deriving DecidableEq

/-- `EnhancedAutoApprovalService._check_platform_criteria` for a supported
platform: `APPROVAL_CRITERIA` maps every supported platform to
`min_followers` (the configurable threshold) and `min_posts = 0`.
Returns the `(approved, reason)` pair of the result dict. -/
def check_platform_criteria (min_followers : ℤ) (followers posts_count : ℤ) :
    Bool × String :=
  if followers < min_followers then
    (false, s!"Requires at least {min_followers} followers (found {followers})")
  else if posts_count < 0 then
    (false, s!"Insufficient posts: {posts_count} < 0")
  else
    (true, "All auto-approval criteria met")

/-- `EnhancedAutoApprovalService._calculate_score`. -/
def calculate_score (platform : String) (followers posts_count : ℤ)
    (verified : Bool) : ℚ :=
  let base : ℚ := 50
  let mult : ℚ :=
    if platform = "youtube" then 12/10
    else if platform = "twitter" then 11/10
    else if platform = "tiktok" then 1
    else 1
  let s1 := base * mult
  let s2 := s1 + (if followers ≥ 100000 then (30:ℚ)
                  else if followers ≥ 50000 then 20
                  else if followers ≥ 25000 then 15
                  else if followers ≥ 10000 then 10 else 0)
  let s3 := s2 + (if verified then (10:ℚ) else 0)
  let s4 := s3 + (if posts_count ≥ 100 then (10:ℚ)
                  else if posts_count ≥ 50 then 5 else 0)
  min s4 100

/-- The fields of the `InfluencerSubmission` row created by
`EnhancedAutoApprovalService.process_submission` that the claims inspect. -/
structure CreatedSubmission where
  status : String
  auto_approved : Bool
  meets_criteria : Bool
  approval_score : ℚ
  rejection_reason : String
  follower_count : ℤ
  channel_name : String
  deriving DecidableEq

/-- `EnhancedAutoApprovalService.process_submission`: validation, the
mock-data/zero-follower conservatism gate, platform criteria, and the
created row.  `none` models the early-error returns that create no row. -/
def process_submission (min_followers : ℤ) (d : SubmissionPayload) :
    Option CreatedSubmission :=
  let platform := PyStr.lower d.platform
  let channel_name := pyOrStr (pyOrStr d.channel_name d.display_name) d.username
  if !d.has_submitter then none
  else if d.url.isEmpty || channel_name.isEmpty || d.category.isEmpty then none
  else if !(SUPPORTED_PLATFORMS.contains platform) then none
  else
    let followers := d.followers
    let is_mock_data := d.mock_data
    let verification_confident := followers > 0 && !is_mock_data
    let approval_result :=
      if !verification_confident then
        let reason :=
          if is_mock_data && followers = 0 then
            d.verification_error.getD "Unable to verify profile - no recent activity detected"
          else if is_mock_data then
            "Profile verification failed - submission queued for manual review"
          else
            "Unable to verify follower count - submission queued for manual review"
        (false, reason)
      else
        check_platform_criteria min_followers followers d.posts_count
    let status :=
      if !verification_confident then "pending"
      else if approval_result.1 then "approved"
      else "rejected"
    let rejection_reason :=
      if status = "rejected" then approval_result.2
      else if status = "pending" then approval_result.2
      else ""
    some {
      status := status
      auto_approved := approval_result.1
      meets_criteria := approval_result.1
      approval_score := calculate_score platform followers d.posts_count d.verified
      rejection_reason := rejection_reason
      follower_count := followers
      channel_name := channel_name }

end Enhanced

/-! ## Search service

Embedding of `src/dashboard/services/search_service.py`
(`perform_influencer_search` and `_infer_category`) together with the
allow-lists of `src/dashboard/constants.py`.  The database is passed in as
the list of influencers with their related trade calls; Django's
`icontains` is case-insensitive substring matching. -/

namespace SearchSvc

/-- An `Asset` row as read by `_infer_category`. -/
structure SAsset where
  symbol : String
  asset_type : Option String
  deriving DecidableEq

/-- A `TradeCall` row as read by the search service. -/
structure SCall where
  status : String
  target_hit : Option Bool
  stoploss_hit : Option Bool
  asset : Option SAsset
  deriving DecidableEq

/-- An `Influencer` row with its related trade calls. -/
structure SInfluencer where
  influencer_id : ℕ
  channel_name : String
  author_name : String
  platform : String
  url : String
  calls : List SCall
  deriving DecidableEq

/-- `SUPPORTED_PLATFORM_VALUES` from `src/dashboard/constants.py`. -/
def SUPPORTED_PLATFORM_VALUES : List String := ["Telegram", "Twitter", "YouTube", "TikTok"]

/-- `SUPPORTED_CATEGORY_VALUES` from `src/dashboard/constants.py`. -/
def SUPPORTED_CATEGORY_VALUES : List String := ["crypto", "stocks", "forex"]

/-- Django `icontains`: case-insensitive substring containment. -/
def strContainsCI (hay needle : String) : Bool :=
  AutoApproval.strContains (PyStr.lower hay) (PyStr.lower needle)

/-- `_infer_category`: majority vote over the asset types of up to 20 tracked
trade calls with a non-null asset; `max` over the dict picks the first
maximal key in insertion order crypto, stocks, forex, commodities. -/
def infer_category (influencer : SInfluencer) : String :=
  let trade_calls :=
    (influencer.calls.filter (fun c => c.status == "True" && c.asset.isSome)).take 20
  let counts := trade_calls.foldl
    (fun (cnt : ℕ × ℕ × ℕ × ℕ) call =>
      let asset_type :=
        match call.asset with
        | some a => if AutoApproval.truthyStr a.asset_type
                    then PyStr.lower (a.asset_type.getD "") else ""
        | none => ""
      let (crypto, stocks, forex, commodities) := cnt
      if AutoApproval.strContains asset_type "stock" ||
         AutoApproval.strContains asset_type "equity" then
        (crypto, stocks + 1, forex, commodities)
      else if AutoApproval.strContains asset_type "forex" ||
              AutoApproval.strContains asset_type "currency" ||
              AutoApproval.strContains asset_type "fx" then
        (crypto, stocks, forex + 1, commodities)
      else if AutoApproval.strContains asset_type "commodit" ||
              AutoApproval.strContains asset_type "gold" ||
              AutoApproval.strContains asset_type "oil" then
        (crypto, stocks, forex, commodities + 1)
      else
        (crypto + 1, stocks, forex, commodities))
    (0, 0, 0, 0)
  let (crypto, stocks, forex, commodities) := counts
  let mx := max crypto (max stocks (max forex commodities))
  if mx = 0 then "Crypto"
  else if crypto = mx then "Crypto"
  else if stocks = mx then "Stocks"
  else if forex = mx then "Forex"
  else "Commodities"

/-- The `total_calls` annotation: related trade calls with `status='True'`. -/
def total_calls_of (influencer : SInfluencer) : ℕ :=
  (influencer.calls.filter (fun c => c.status == "True")).length

/-- The `successful_calls` annotation: tracked calls with `target_hit=True`. -/
def successful_calls_of (influencer : SInfluencer) : ℕ :=
  (influencer.calls.filter
    (fun c => c.status == "True" && c.target_hit == some true)).length

/-- The `failed_calls` annotation: tracked calls with `stoploss_hit=True`. -/
def failed_calls_of (influencer : SInfluencer) : ℕ :=
  (influencer.calls.filter
    (fun c => c.status == "True" && c.stoploss_hit == some true)).length

/-- The `Q(channel_name__icontains) | Q(author_name__icontains) |
Q(url__icontains)` search filter. -/
def matches_query (q : String) (influencer : SInfluencer) : Bool :=
  strContainsCI influencer.channel_name q ||
  strContainsCI influencer.author_name q ||
  strContainsCI influencer.url q

/-- One entry of the search `results` list. -/
structure SearchResultEntry where
  id : ℕ
  channel_name : String
  author_name : String
  platform : String
  url : String
  total_calls : ℕ
  successful_calls : ℕ
  failed_calls : ℕ
  resolved_calls : ℕ
  accuracy : ℚ
  category : String
  confidence_value : ℚ
  ci_low : ℚ
  ci_high : ℚ
  deriving DecidableEq

/-- The per-influencer result dict built in the loop of
`perform_influencer_search`. -/
def build_entry (root : ℤ → ℚ) (influencer : SInfluencer) : SearchResultEntry :=
  let total_calls := total_calls_of influencer
  let successful_calls := successful_calls_of influencer
  let failed_calls := failed_calls_of influencer
  let resolved_calls := successful_calls + failed_calls
  let accuracy : ℚ :=
    if resolved_calls > 0 then
      Stats.pyRound ((successful_calls : ℚ) / (resolved_calls : ℚ) * 100) 1
    else 0
  let inferred_category := infer_category influencer
  let ci :=
    if resolved_calls > 0 then
      Stats.clopper_pearson_interval root (successful_calls : ℤ) (resolved_calls : ℤ)
    else (0, 0)
  { id := influencer.influencer_id
    channel_name :=
      Enhanced.pyOrStr (Enhanced.pyOrStr influencer.channel_name influencer.author_name) "Unknown"
    author_name := influencer.author_name
    platform := Enhanced.pyOrStr influencer.platform "Unknown"
    url := influencer.url
    total_calls := total_calls
    successful_calls := successful_calls
    failed_calls := failed_calls
    resolved_calls := resolved_calls
    accuracy := accuracy
    category := inferred_category
    confidence_value := ci.1
    ci_low := ci.1
    ci_high := ci.2 }

/-- Lexicographic `≤` on rational pairs, used to mirror Python's stable
tuple-keyed sorts. -/
def qpairLe (x y : ℚ × ℚ) : Bool :=
  decide (x.1 < y.1) || (decide (x.1 = y.1) && decide (x.2 ≤ y.2))

/-- The four sort orders of `perform_influencer_search` (Python's stable
`list.sort`; `reverse=True` keeps ties in encounter order, which a stable
merge sort with a `≥` comparator reproduces). -/
def sort_results (sort_by query : String) (results : List SearchResultEntry) :
    List SearchResultEntry :=
  if sort_by = "accuracy" then
    PyStr.sortBy (fun a b =>
      qpairLe (b.accuracy, (b.total_calls : ℚ)) (a.accuracy, (a.total_calls : ℚ))) results
  else if sort_by = "calls" then
    PyStr.sortBy (fun a b => b.total_calls ≤ a.total_calls) results
  else if sort_by = "name" then
    PyStr.sortBy (fun a b => PyStr.strLe (PyStr.lower a.channel_name) (PyStr.lower b.channel_name)) results
  else
    if !query.isEmpty then
      PyStr.sortBy (fun a b =>
        qpairLe (b.accuracy, (b.total_calls : ℚ)) (a.accuracy, (a.total_calls : ℚ))) results
    else
      PyStr.sortBy (fun a b =>
        qpairLe ((b.total_calls : ℚ), b.accuracy) ((a.total_calls : ℚ), a.accuracy)) results

/-- The paginated output of `perform_influencer_search`. -/
structure SearchOutput where
  results : List SearchResultEntry
  total : ℕ
  page : ℤ
  page_size : ℤ
  total_pages : ℤ
  has_next : Bool
  has_previous : Bool
  query : String
  deriving DecidableEq

/-- `perform_influencer_search` from
`src/dashboard/services/search_service.py`: input sanitization, the query
pipeline over the influencer table (capped at 300 candidates), category
filtering after inference, sorting and pagination.  `root` is threaded to
the Clopper-Pearson computation (see `Stats.clopper_pearson_interval`). -/
def perform_influencer_search (root : ℤ → ℚ) (db : List SInfluencer)
    (query platform category sort_by : String) (page page_size : ℤ) :
    SearchOutput :=
  let query := PyStr.strip query
  let platform := PyStr.strip platform
  let category := PyStr.lower (PyStr.strip category)
  let sort_by :=
    if ["relevance", "accuracy", "calls", "name"].contains sort_by then sort_by
    else "relevance"
  let platform := if SUPPORTED_PLATFORM_VALUES.contains platform then platform else ""
  let category := if SUPPORTED_CATEGORY_VALUES.contains category then category else ""
  let page := max 1 (if page = 0 then 1 else page)
  let page_size := max 6 (min 30 (if page_size = 0 then 12 else page_size))
  let qs1 := if !query.isEmpty then db.filter (matches_query query) else db
  let qs2 :=
    if !platform.isEmpty then qs1.filter (fun i => strContainsCI i.platform platform)
    else qs1
  let qs3 := qs2.filter (fun i => total_calls_of i > 0)
  let candidates := qs3.take 300
  let results := (candidates.map (build_entry root)).filter
    (fun e => category.isEmpty || PyStr.lower e.category == category)
  let results := sort_results sort_by query results
  let total := results.length
  let total_pages : ℤ := if total ≠ 0 then ⌈(total : ℚ) / (page_size : ℚ)⌉ else 0
  let page := if total_pages ≠ 0 then min page total_pages else 1
  let start : ℤ := if total_pages ≠ 0 then (page - 1) * page_size else 0
  let stop : ℤ := if total_pages ≠ 0 then start + page_size else 0
  let page_results :=
    if total ≠ 0 then (results.drop start.toNat).take (stop - start).toNat else []
  { results := page_results
    total := total
    page := page
    page_size := page_size
    total_pages := total_pages
    has_next := page < total_pages
    has_previous := page > 1
    query := query }

end SearchSvc

/-! ## Notifications service

Embedding of `src/dashboard/services/notifications.py`
(`build_user_notifications` and `_format_time_ago`).  Timestamps are epoch
seconds; the feed's final conversion of each timestamp to an ISO string is
display formatting and the field is kept numeric here. -/

namespace Notif

/-- A tracked `TradeCall` joined with its influencer and asset, as read by
the watchlist-signal stream (`influencer_name`/`asset_symbol` are `none`
when the nullable foreign key is null). -/
structure NotiCall where
  id : ℕ
  timestamp : Option ℤ
  target_hit : Option Bool
  stoploss_hit : Option Bool
  influencer_name : Option String
  asset_symbol : Option String
  deriving DecidableEq

/-- An `InfluencerSubmission` row as read by the submission stream. -/
structure NotiSubmission where
  id : ℕ
  updated_at : Option ℤ
  created_at : Option ℤ
  status : String
  channel_name : String
  rejection_reason : String
  deriving DecidableEq

/-- One notification dict of the feed. -/
structure NotificationItem where
  id : String
  ntype : String
  icon : String
  title : String
  message : String
  timestamp : ℤ
  time : String
  unread : Bool
  category : String
  deriving DecidableEq

/-- `_format_time_ago` (the quotients only arise for non-negative
differences, where Python's floor division and `Int` division agree). -/
def format_time_ago (timestamp : Option ℤ) (now : ℤ) : String :=
  match timestamp with
  | none => "Just now"
  | some ts =>
    let seconds := now - ts
    if seconds < 60 then "Just now"
    else if seconds < 3600 then toString (seconds / 60) ++ "m ago"
    else if seconds < 86400 then toString (seconds / 3600) ++ "h ago"
    else toString (seconds / 86400) ++ "d ago"

/-- The signal-event notification built for one watchlist trade call. -/
def call_item (now : ℤ) (read_ids : List String) (call : NotiCall) :
    NotificationItem :=
  let unread_threshold := now - 86400
  let ts := call.timestamp.getD now
  let influencer_name := call.influencer_name.getD "Unknown influencer"
  let asset_symbol := call.asset_symbol.getD "Asset"
  let tgt := call.target_hit.getD false
  let stop := call.stoploss_hit.getD false
  let status := if tgt then "target hit" else if stop then "stopped" else "active"
  let notif_type := if tgt then "success" else if stop then "danger" else "info"
  let title := influencer_name ++ (if tgt then " hit target" else " shared a call")
  let message := asset_symbol ++ " signal is " ++ status ++ "."
  let notification_id := "call-" ++ toString call.id
  let is_unread := decide (ts ≥ unread_threshold) &&
    !(read_ids.contains notification_id)
  { id := notification_id
    ntype := notif_type
    icon := "fa-chart-line"
    title := title
    message := message
    timestamp := ts
    time := format_time_ago (some ts) now
    unread := is_unread
    category := "signals" }

/-- The submission-update notification built for one of the user's own
submissions. -/
def submission_item (now : ℤ) (read_ids : List String) (s : NotiSubmission) :
    NotificationItem :=
  let unread_threshold := now - 86400
  let ts := (s.updated_at.orElse (fun _ => s.created_at)).getD now
  let notif_type :=
    if s.status = "approved" then "success"
    else if s.status = "rejected" then "danger"
    else "warning"
  let icon :=
    if s.status = "approved" then "fa-check-circle"
    else if s.status = "rejected" then "fa-times-circle"
    else "fa-hourglass-half"
  let title :=
    if s.status = "approved" then s.channel_name ++ " approved"
    else if s.status = "rejected" then s.channel_name ++ " rejected"
    else s.channel_name ++ " pending review"
  let message :=
    if s.status = "approved" then "Your submission has been approved."
    else if s.status = "rejected" then
      Enhanced.pyOrStr s.rejection_reason "Your submission was rejected."
    else "We're still reviewing this submission."
  let notification_id := "submission-" ++ toString s.id
  let is_unread :=
    (decide (ts ≥ unread_threshold) &&
     (s.status = "approved" || s.status = "rejected")) &&
    !(read_ids.contains notification_id)
  { id := notification_id
    ntype := notif_type
    icon := icon
    title := title
    message := message
    timestamp := ts
    time := format_time_ago (some ts) now
    unread := is_unread
    category := "submissions" }

/-- `build_user_notifications`: each stream is capped at `limit` (the query
slices), the streams are merged, sorted by timestamp descending (stable),
and truncated to `limit`.  `read_ids` is the user's set of
`NotificationRead.notification_id` values. -/
def build_user_notifications (now : ℤ) (read_ids : List String)
    (watchlist_calls : List NotiCall) (submissions : List NotiSubmission)
    (limit : ℕ) : List NotificationItem :=
  let call_items := (watchlist_calls.take limit).map (call_item now read_ids)
  let sub_items := (submissions.take limit).map (submission_item now read_ids)
  let notifications := call_items ++ sub_items
  (PyStr.sortBy (fun a b => b.timestamp ≤ a.timestamp) notifications).take limit

end Notif

/-! ## Telegram authentication

Embedding of `TelegramAuth.verify_telegram_auth` from
`src/authentication/telegram_auth.py`.  The HMAC-SHA256 primitive (with the
SHA-256 of the bot token as key) comes from Python's standard library, so it
is a parameter `hmac_hex : bot_token → data_check_string → hex digest`;
the claims hold for every such function.  `now` is `time.time()` in epoch
seconds. -/

namespace Telegram

/-- The newline-joined `key=value` data-check string over the auth fields
sorted by key. -/
def build_data_check_string (auth_data : List (String × String)) : String :=
  String.intercalate "\n"
    ((PyStr.sortBy (fun a b => PyStr.strLe a.1 b.1) auth_data).map
      (fun kv => kv.1 ++ "=" ++ kv.2))

/-- `TelegramAuth.verify_telegram_auth(auth_data)`: returns the
`(ok, message)` pair of the source.  `auth_data` is the POST dict as an
association list with unique keys. -/
def verify_telegram_auth (hmac_hex : String → String → String)
    (bot_token : String) (auth_data : List (String × String)) (now : ℤ) :
    Bool × String :=
  if bot_token.isEmpty then (false, "Telegram bot token not configured")
  else
    match auth_data.lookup "auth_date" with
    | none => (false, "Missing auth_date")
    | some auth_date =>
      if auth_date.isEmpty then (false, "Missing auth_date")
      else
        match PyStr.pyInt auth_date with
        | none => (false, "Invalid auth_date format")
        | some auth_timestamp =>
          if now - auth_timestamp > 86400 then
            (false, "Authentication data is too old")
          else
            match auth_data.lookup "hash" with
            | none => (false, "Missing hash")
            | some hash_value =>
              if hash_value.isEmpty then (false, "Missing hash")
              else
                let rest := auth_data.filter (fun kv => kv.1 ≠ "hash")
                let data_check_string := build_data_check_string rest
                if hmac_hex bot_token data_check_string ≠ hash_value then
                  (false, "Hash verification failed")
                else (true, "Authentication verified")

end Telegram

/-! ## Return simulation

Embedding of `simulate_returns_api` from `src/api/views.py` (the
computation on the already-fetched period's calls: the query filters
`status='True'` and `target_hit__isnull=False`, so the input list is that
query's result).  Prices are rationals; `date` keeps the call's epoch
timestamp (ISO formatting is display-only). -/

namespace Sim

/-- A resolved-period `TradeCall` as read by the simulation. -/
structure SimCall where
  timestamp : ℤ
  target_hit : Option Bool
  stoploss_hit : Option Bool
  assumed_entry_price : Option ℚ
  target_first : Option ℚ
  stoploss_price : Option ℚ
  asset_symbol : Option String
  signal : String
  deriving DecidableEq

/-- One `returns_data` chart row (`return_pct`, `return_amount` and
`cumulative_value` are stored rounded to two decimals, as in the source). -/
structure SimRow where
  date : ℤ
  asset : String
  signal : String
  entry : ℚ
  target : Option ℚ
  stoploss : Option ℚ
  return_pct : ℚ
  return_amount : ℚ
  cumulative_value : ℚ
  deriving DecidableEq

/-- Python truthiness of the guard
`call.target_hit and call.assumed_entry_price and call.target_first`. -/
def branch_target (c : SimCall) : Bool :=
  c.target_hit.getD false && AutoApproval.truthyRat c.assumed_entry_price &&
  AutoApproval.truthyRat c.target_first

/-- Python truthiness of the guard
`call.stoploss_hit and call.assumed_entry_price and call.stoploss_price`. -/
def branch_stop (c : SimCall) : Bool :=
  c.stoploss_hit.getD false && AutoApproval.truthyRat c.assumed_entry_price &&
  AutoApproval.truthyRat c.stoploss_price

/-- The loop body of `simulate_returns_api`: appends a chart row and
compounds `cumulative_value` for a call taking either branch, and leaves the
state unchanged otherwise. -/
def sim_step (per_call_budget : ℚ) (st : List SimRow × ℚ) (call : SimCall) :
    List SimRow × ℚ :=
  if branch_target call then
    let entry := call.assumed_entry_price.getD 0
    let target := call.target_first.getD 0
    let return_pct := (target - entry) / entry
    let call_return := per_call_budget * return_pct
    let cumulative := st.2 + call_return
    (st.1 ++ [{ date := call.timestamp
                asset := call.asset_symbol.getD "Unknown"
                signal := call.signal
                entry := entry
                target := some target
                stoploss := none
                return_pct := Stats.pyRound (return_pct * 100) 2
                return_amount := Stats.pyRound call_return 2
                cumulative_value := Stats.pyRound cumulative 2 }], cumulative)
  else if branch_stop call then
    let entry := call.assumed_entry_price.getD 0
    let stoploss := call.stoploss_price.getD 0
    let loss_pct := (stoploss - entry) / entry
    let call_loss := per_call_budget * loss_pct
    let cumulative := st.2 + call_loss
    (st.1 ++ [{ date := call.timestamp
                asset := call.asset_symbol.getD "Unknown"
                signal := call.signal
                entry := entry
                target := none
                stoploss := some stoploss
                return_pct := Stats.pyRound (loss_pct * 100) 2
                return_amount := Stats.pyRound call_loss 2
                cumulative_value := Stats.pyRound cumulative 2 }], cumulative)
  else st

/-- The chart-building loop: equal per-call budget `budget / total_calls`,
calls replayed in chronological order, starting from
`(returns_data, cumulative_value) = ([], budget)`. -/
def sim_core (budget : ℚ) (calls : List SimCall) : List SimRow × ℚ :=
  let per_call_budget := budget / (calls.length : ℚ)
  (PyStr.sortBy (fun a b => a.timestamp ≤ b.timestamp) calls).foldl
    (sim_step per_call_budget) ([], budget)

/-- The summary payload of `simulate_returns_api`. -/
structure SimResult where
  final_value : ℚ
  total_return_amount : ℚ
  total_return_pct : ℚ
  total_calls : ℕ
  successful_calls : ℕ
  failed_calls : ℕ
  success_rate : ℚ
  avg_win : ℚ
  avg_loss : ℚ
  chart_data : List SimRow
  deriving DecidableEq

/-- `simulate_returns_api` on the period's resolved calls: `none` is the
404 "No historical data available" return for an empty period. -/
def simulate_returns (budget : ℚ) (calls : List SimCall) : Option SimResult :=
  let total_calls := calls.length
  if total_calls = 0 then none
  else
    let successful_calls := (calls.filter (fun c => c.target_hit == some true)).length
    let failed_calls := (calls.filter (fun c => c.stoploss_hit == some true)).length
    let core := sim_core budget calls
    let returns_data := core.1
    let final_value := core.2
    let total_return_amount := final_value - budget
    let total_return_pct := total_return_amount / budget * 100
    let success_rate : ℚ := (successful_calls : ℚ) / (total_calls : ℚ) * 100
    let win_returns := (returns_data.filter (fun r => r.return_amount > 0)).map
      (fun r => r.return_amount)
    let avg_win : ℚ :=
      if successful_calls > 0 && !win_returns.isEmpty then
        win_returns.sum / (win_returns.length : ℚ)
      else 0
    let loss_returns := (returns_data.filter (fun r => r.return_amount < 0)).map
      (fun r => r.return_amount)
    let avg_loss : ℚ :=
      if failed_calls > 0 && !loss_returns.isEmpty then
        loss_returns.sum / (loss_returns.length : ℚ)
      else 0
    some { final_value := Stats.pyRound final_value 2
           total_return_amount := Stats.pyRound total_return_amount 2
           total_return_pct := Stats.pyRound total_return_pct 2
           total_calls := total_calls
           successful_calls := successful_calls
           failed_calls := failed_calls
           success_rate := Stats.pyRound success_rate 1
           avg_win := Stats.pyRound avg_win 2
           avg_loss := Stats.pyRound avg_loss 2
           chart_data := returns_data }

/-- A call that contributes no chart row: neither branch guard holds. -/
def skips (c : SimCall) : Bool := !branch_target c && !branch_stop c

/-- The three skipped-call categories exactly as claim C10 enumerates them:
a target-hit call missing `assumed_entry_price` or `target_first`; a
stoploss-hit call missing `assumed_entry_price` or `stoploss_price`; a call
with `target_hit=false` and `stoploss_hit` not true. -/
def skip_claim (c : SimCall) : Bool :=
  (c.target_hit.getD false &&
    (!AutoApproval.truthyRat c.assumed_entry_price ||
     !AutoApproval.truthyRat c.target_first)) ||
  (c.stoploss_hit.getD false &&
    (!AutoApproval.truthyRat c.assumed_entry_price ||
     !AutoApproval.truthyRat c.stoploss_price)) ||
  (c.target_hit == some false && !(c.stoploss_hit.getD false))

/-- The realized percentage return of a non-skipped call:
`(target−entry)/entry` on the target branch, `(stoploss−entry)/entry` on the
stoploss branch. -/
def call_pct (c : SimCall) : ℚ :=
  if branch_target c then
    (c.target_first.getD 0 - c.assumed_entry_price.getD 0) / c.assumed_entry_price.getD 0
  else
    (c.stoploss_price.getD 0 - c.assumed_entry_price.getD 0) / c.assumed_entry_price.getD 0

end Sim

/-! ## Theorems -/

/-- C1: in the synchronous payload-based service, a payload whose coerced
followers value is 0 or that is flagged `mock_data` always yields a row with
status `"pending"` (never `"approved"`), for every configured
minimum-follower threshold. -/
theorem claim_C1_sync_mock_data_forces_pending
    (min_followers : ℤ) (d : Enhanced.SubmissionPayload)
    (r : Enhanced.CreatedSubmission)
    (hrow : Enhanced.process_submission min_followers d = some r)
    (hcond : d.followers = 0 ∨ d.mock_data = true) :
    r.status = "pending" ∧ r.status ≠ "approved" := by
  have hvc : (decide (d.followers > 0) && !d.mock_data) = false := by
    rcases hcond with h | h
    · simp [h]
    · simp [h]
  simp [Enhanced.process_submission, hvc] at hrow
  obtain ⟨-, -, -, h⟩ := hrow
  have hs : r.status = "pending" := by rw [← h]
  refine ⟨hs, ?_⟩
  rw [hs]
  decide

/-- Concrete payload exercising `claim_C1_sync_mock_data_forces_pending`. -/
def c1_payload : Enhanced.SubmissionPayload :=
  { platform := "twitter"
    url := "https://x.com/alpha"
    username := "alpha"
    has_submitter := true
    category := "crypto"
    channel_name := "Alpha"
    display_name := "Alpha"
    followers := 0
    posts_count := 3
    verified := false
    mock_data := false
    verification_error := none }

/-- The row created for `c1_payload` at threshold 1000. -/
def c1_row : Enhanced.CreatedSubmission :=
  { status := "pending"
    auto_approved := false
    meets_criteria := false
    approval_score := 55
    rejection_reason := "Unable to verify follower count - submission queued for manual review"
    follower_count := 0
    channel_name := "Alpha" }

/-- Witness for C1 at a concrete zero-follower payload. -/
theorem claim_C1_sync_mock_data_forces_pending_witness :
    Enhanced.process_submission 1000 c1_payload = some c1_row ∧
    (c1_payload.followers = 0 ∨ c1_payload.mock_data = true) ∧
    (c1_row.status = "pending" ∧ c1_row.status ≠ "approved") :=
  ⟨by decide, Or.inl rfl,
   claim_C1_sync_mock_data_forces_pending 1000 c1_payload c1_row
     (by decide) (Or.inl rfl)⟩

/-- C8: Telegram login verification rejects every payload whose `auth_date`
is more than 86400 seconds in the past with the "too old" reason, before the
hash is even inspected — hence for every HMAC function, including one under
which the payload's hash would verify. -/
theorem claim_C8_telegram_auth_freshness
    (hmac_hex : String → String → String) (bot_token : String)
    (auth_data : List (String × String)) (now ts : ℤ) (auth_date : String)
    (htok : bot_token.isEmpty = false)
    (hfield : auth_data.lookup "auth_date" = some auth_date)
    (hne : auth_date.isEmpty = false)
    (hparse : PyStr.pyInt auth_date = some ts)
    (hold : now - ts > 86400) :
    Telegram.verify_telegram_auth hmac_hex bot_token auth_data now =
      (false, "Authentication data is too old") := by
  simp [Telegram.verify_telegram_auth, htok, hfield, hne, hparse, hold]

/-- Witness for C8: a concrete day-old payload with a hash field present. -/
theorem claim_C8_telegram_auth_freshness_witness :
    ("token".isEmpty = false) ∧
    ([("auth_date", "10"), ("hash", "aa")].lookup "auth_date" = some "10") ∧
    ("10".isEmpty = false) ∧
    (PyStr.pyInt "10" = some 10) ∧
    ((100000 : ℤ) - 10 > 86400) ∧
    Telegram.verify_telegram_auth (fun _ _ => "aa") "token"
      [("auth_date", "10"), ("hash", "aa")] 100000 =
      (false, "Authentication data is too old") :=
  ⟨rfl, rfl, rfl, rfl, by decide,
   claim_C8_telegram_auth_freshness (fun _ _ => "aa") "token"
     [("auth_date", "10"), ("hash", "aa")] 100000 10 "10" rfl rfl rfl rfl
     (by decide)⟩

/-- The single resolved call of the C9 scenario: entry 100, first target 110,
target hit. -/
def c9_call : Sim.SimCall :=
  { timestamp := 0
    target_hit := some true
    stoploss_hit := none
    assumed_entry_price := some 100
    target_first := some 110
    stoploss_price := none
    asset_symbol := some "BTC"
    signal := "buy" }

/-- C9: with budget 1000 and exactly one resolved call (entry 100, target
110, target hit), the per-call budget is 1000, the single chart row shows
`return_pct = 10.0` and `cumulative_value = 1100.0`, and the summary has
`total_return_pct = 10.0`. -/
theorem claim_C9_simulation_deterministic :
    Sim.simulate_returns 1000 [c9_call] =
      some { final_value := 1100
             total_return_amount := 100
             total_return_pct := 10
             total_calls := 1
             successful_calls := 1
             failed_calls := 0
             success_rate := 100
             avg_win := 100
             avg_loss := 0
             chart_data := [{ date := 0
                              asset := "BTC"
                              signal := "buy"
                              entry := 100
                              target := some 110
                              stoploss := none
                              return_pct := 10
                              return_amount := 100
                              cumulative_value := 1100 }] } := by
  decide

/-- The follower variance used by the async service's accuracy tiers:
`|actual − submitted| / max(actual, submitted)`. -/
def follower_variance (a s : ℤ) : ℚ :=
  |(a : ℚ) - (s : ℚ)| / ((max a s : ℤ) : ℚ)

/-- The 100/80/60/40/20/0 tier table of claim C4, keyed by variance. -/
def variance_tier (v : ℚ) : ℤ :=
  if v ≤ 5/100 then 100
  else if v ≤ 10/100 then 80
  else if v ≤ 20/100 then 60
  else if v ≤ 30/100 then 40
  else if v ≤ 50/100 then 20
  else 0

/-- Submission with a positive submitted follower count (C4 counterexample). -/
def c4_sub : AutoApproval.Submission :=
  { follower_count := some 100
    channel_name := "chan"
    author_name := ""
    url := "https://example.com/c"
    platform := "Twitter" }

/-- Verification whose actual follower count is exactly 0 (C4 counterexample). -/
def c4_ver : AutoApproval.VerificationResult :=
  { is_valid := true
    actual_followers := some 0
    actual_name := none
    account_age_days := none
    is_verified := false
    engagement_rate := none
    error_message := none
    confidence_score := 80 }

/-- C4 counterexample: with `actual_followers = 0` (and a positive submitted
count) the follower-accuracy component is 30 — the neutral
"data unavailable" score — not 0 as the claim states: Python's `not 0`
truthiness sends a zero count into the 30-branch before the zero check. -/
theorem claim_C4_follower_accuracy_counterexample :
    AutoApproval.calculate_follower_accuracy_score c4_sub c4_ver = 30 ∧
    ¬(AutoApproval.calculate_follower_accuracy_score c4_sub c4_ver = 0) := by
  constructor
  · decide
  · decide

/-- C4 amended: for strictly positive actual and submitted counts the
follower-accuracy component equals the 100/80/60/40/20/0 tier of the
variance `|actual−submitted|/max(actual,submitted)`; whenever either count
is `None` or exactly 0 the component is the neutral score 30 (not 0). -/
theorem claim_C4_follower_accuracy_amended :
    (∀ (sub : AutoApproval.Submission) (ver : AutoApproval.VerificationResult)
       (a s : ℤ),
       ver.actual_followers = some a → sub.follower_count = some s →
       0 < a → 0 < s →
       AutoApproval.calculate_follower_accuracy_score sub ver =
         variance_tier (follower_variance a s)) ∧
    (∀ (sub : AutoApproval.Submission) (ver : AutoApproval.VerificationResult),
       (ver.actual_followers = none ∨ ver.actual_followers = some 0 ∨
        sub.follower_count = none ∨ sub.follower_count = some 0) →
       AutoApproval.calculate_follower_accuracy_score sub ver = 30) := by
  constructor
  · intro sub ver a s ha hs ha0 hs0
    have ta : AutoApproval.truthyInt (some a) = true := by
      simp [AutoApproval.truthyInt]
      omega
    have ts : AutoApproval.truthyInt (some s) = true := by
      simp [AutoApproval.truthyInt]
      omega
    simp only [AutoApproval.calculate_follower_accuracy_score, ha, hs, ta, ts,
      Option.getD_some, Bool.not_true, Bool.or_self, Bool.false_or, if_false,
      Bool.false_eq_true, variance_tier, follower_variance]
    have : ¬(a = 0 ∨ s = 0) := by omega
    rw [if_neg this]
  · intro sub ver h
    rcases h with h | h | h | h <;>
      simp [AutoApproval.calculate_follower_accuracy_score, h, AutoApproval.truthyInt]

/-- Witness inputs for the amended C4: both counts 1000, zero variance. -/
def c4w_sub : AutoApproval.Submission :=
  { follower_count := some 1000
    channel_name := "chan"
    author_name := ""
    url := "https://example.com/c"
    platform := "Twitter" }

/-- Verification with actual followers 1000 (C4 witness). -/
def c4w_ver : AutoApproval.VerificationResult :=
  { is_valid := true
    actual_followers := some 1000
    actual_name := none
    account_age_days := none
    is_verified := false
    engagement_rate := none
    error_message := none
    confidence_score := 80 }

/-- Witness for the amended C4 at equal counts (variance 0, tier 100). -/
theorem claim_C4_follower_accuracy_amended_witness :
    (c4w_ver.actual_followers = some 1000) ∧
    (c4w_sub.follower_count = some 1000) ∧
    ((0 : ℤ) < 1000) ∧
    (AutoApproval.calculate_follower_accuracy_score c4w_sub c4w_ver =
      variance_tier (follower_variance 1000 1000)) ∧
    (variance_tier (follower_variance 1000 1000) = 100) :=
  ⟨rfl, rfl, by decide,
   claim_C4_follower_accuracy_amended.1 c4w_sub c4w_ver 1000 1000 rfl rfl
     (by decide) (by decide),
   by decide⟩

/-- Stable insertion permutes: inserting `a` yields a permutation of
`a :: l`. -/
theorem insertOrd_perm {α : Type} (le : α → α → Bool) (a : α) (l : List α) :
    (PyStr.insertOrd le a l).Perm (a :: l) := by
  induction l with
  | nil => exact List.Perm.refl _
  | cons b t ih =>
    simp only [PyStr.insertOrd]
    split
    · exact List.Perm.refl _
    · exact (ih.cons b).trans (List.Perm.swap a b t)

/-- `PyStr.sortBy` permutes its input. -/
theorem sortBy_perm {α : Type} (le : α → α → Bool) (l : List α) :
    (PyStr.sortBy le l).Perm l := by
  induction l with
  | nil => exact List.Perm.refl _
  | cons a t ih =>
    exact (insertOrd_perm le a (PyStr.sortBy le t)).trans (ih.cons a)

/-- Counting the complement of a filter. -/
theorem length_filter_not_eq {α : Type} (p : α → Bool) (l : List α) :
    (l.filter (fun a => !p a)).length = l.length - (l.filter p).length := by
  induction l with
  | nil => rfl
  | cons a t ih =>
    have hle := List.length_filter_le p t
    by_cases h : p a = true <;> (simp [List.filter_cons, h, ih]; try omega)

/-- A skipped call leaves the simulation state unchanged. -/
theorem sim_step_skip (pcb : ℚ) (st : List Sim.SimRow × ℚ) (c : Sim.SimCall)
    (h : Sim.skips c = true) : Sim.sim_step pcb st c = st := by
  simp only [Sim.skips, Bool.and_eq_true, Bool.not_eq_true'] at h
  simp [Sim.sim_step, h.1, h.2]

/-- A non-skipped call appends exactly one chart row and adds
`per_call_budget * call_pct` to the cumulative value. -/
theorem sim_step_active (pcb : ℚ) (st : List Sim.SimRow × ℚ) (c : Sim.SimCall)
    (h : Sim.skips c = false) :
    (Sim.sim_step pcb st c).1.length = st.1.length + 1 ∧
    (Sim.sim_step pcb st c).2 = st.2 + pcb * Sim.call_pct c := by
  by_cases h1 : Sim.branch_target c = true
  · constructor
    · simp [Sim.sim_step, h1]
    · simp [Sim.sim_step, Sim.call_pct, h1]
  · have hb1 : Sim.branch_target c = false := by
      cases hbt : Sim.branch_target c
      · rfl
      · exact absurd hbt h1
    have h2 : Sim.branch_stop c = true := by
      simpa [Sim.skips, hb1] using h
    constructor
    · simp [Sim.sim_step, hb1, h2]
    · simp [Sim.sim_step, Sim.call_pct, hb1, h2]

/-- The simulation fold: chart length counts the non-skipped calls and the
cumulative value compounds exactly their per-call returns. -/
theorem sim_fold_spec (pcb : ℚ) :
    ∀ (l : List Sim.SimCall) (acc : List Sim.SimRow) (cum : ℚ),
      (l.foldl (Sim.sim_step pcb) (acc, cum)).1.length =
          acc.length + (l.filter (fun c => !Sim.skips c)).length ∧
      (l.foldl (Sim.sim_step pcb) (acc, cum)).2 =
          cum + ((l.filter (fun c => !Sim.skips c)).map
            (fun c => pcb * Sim.call_pct c)).sum
  | [], acc, cum => by simp
  | c :: t, acc, cum => by
    cases hsk : Sim.skips c
    · obtain ⟨hlen, hcum⟩ := sim_step_active pcb (acc, cum) c hsk
      have ih := sim_fold_spec pcb t (Sim.sim_step pcb (acc, cum) c).1
        (Sim.sim_step pcb (acc, cum) c).2
      rw [List.foldl_cons]
      constructor
      · rw [show Sim.sim_step pcb (acc, cum) c =
            ((Sim.sim_step pcb (acc, cum) c).1, (Sim.sim_step pcb (acc, cum) c).2) from rfl,
          ih.1, hlen]
        simp [List.filter_cons, hsk]
        omega
      · rw [show Sim.sim_step pcb (acc, cum) c =
            ((Sim.sim_step pcb (acc, cum) c).1, (Sim.sim_step pcb (acc, cum) c).2) from rfl,
          ih.2, hcum]
        simp [List.filter_cons, hsk]
        ring
    · have ih := sim_fold_spec pcb t acc cum
      rw [List.foldl_cons, sim_step_skip pcb (acc, cum) c hsk]
      simp [List.filter_cons, hsk, ih.1, ih.2]

/-- On a resolved call (`target_hit` non-null) that does not have both hit
flags set, the claim's three skip categories coincide with the code's
"neither branch fires" condition. -/
theorem skip_claim_eq_skips (c : Sim.SimCall) (hres : c.target_hit ≠ none)
    (hx : ¬(c.target_hit.getD false = true ∧ c.stoploss_hit.getD false = true)) :
    Sim.skip_claim c = Sim.skips c := by
  obtain ⟨b, hb⟩ := Option.ne_none_iff_exists'.mp hres
  cases b
  · cases hs : c.stoploss_hit.getD false <;>
      cases ha : AutoApproval.truthyRat c.assumed_entry_price <;>
      cases hf : AutoApproval.truthyRat c.target_first <;>
      cases hg : AutoApproval.truthyRat c.stoploss_price <;>
        simp [Sim.skip_claim, Sim.skips, Sim.branch_target, Sim.branch_stop,
          hb, hs, ha, hf, hg]
  · have hs : c.stoploss_hit.getD false = false := by
      cases hsv : c.stoploss_hit.getD false
      · rfl
      · exact absurd ⟨by rw [hb]; rfl, hsv⟩ hx
    cases ha : AutoApproval.truthyRat c.assumed_entry_price <;>
      cases hf : AutoApproval.truthyRat c.target_first <;>
        simp [Sim.skip_claim, Sim.skips, Sim.branch_target, Sim.branch_stop,
          hb, hs, ha, hf]

/-- C10 amended: over a period of resolved calls none of which has both hit
flags set, every call in the claim's three skip categories contributes no
chart row and leaves the cumulative value unchanged while still enlarging
the per-call-budget denominator: with `n` calls of which `m` are skipped,
`chart_data` has exactly `n − m` rows, the final cumulative value is the
budget plus the compounded returns of the non-skipped calls at per-call
budget `budget/n`, and the invested amount is `budget/n · (n − m)`. -/
theorem claim_C10_skipped_calls_amended (budget : ℚ) (calls : List Sim.SimCall)
    (hres : ∀ c ∈ calls, c.target_hit ≠ none)
    (hx : ∀ c ∈ calls,
      ¬(c.target_hit.getD false = true ∧ c.stoploss_hit.getD false = true)) :
    (Sim.sim_core budget calls).1.length =
        calls.length - (calls.filter Sim.skip_claim).length ∧
    (Sim.sim_core budget calls).2 =
        budget + ((calls.filter (fun c => !Sim.skip_claim c)).map
          (fun c => budget / (calls.length : ℚ) * Sim.call_pct c)).sum ∧
    budget / (calls.length : ℚ) * (((Sim.sim_core budget calls).1.length : ℚ)) =
        budget / (calls.length : ℚ) *
          ((calls.length : ℚ) - ((calls.filter Sim.skip_claim).length : ℚ)) := by
  have hpt : ∀ c ∈ calls, Sim.skip_claim c = Sim.skips c := fun c hc =>
    skip_claim_eq_skips c (hres c hc) (hx c hc)
  have hfe : calls.filter Sim.skip_claim = calls.filter Sim.skips :=
    List.filter_congr hpt
  have hfne : calls.filter (fun c => !Sim.skip_claim c) =
      calls.filter (fun c => !Sim.skips c) :=
    List.filter_congr (fun c hc => by rw [hpt c hc])
  have hperm := sortBy_perm (fun a b : Sim.SimCall => a.timestamp ≤ b.timestamp) calls
  have spec := sim_fold_spec (budget / (calls.length : ℚ))
    (PyStr.sortBy (fun a b : Sim.SimCall => a.timestamp ≤ b.timestamp) calls) [] budget
  have hpermfilter := hperm.filter (fun c => !Sim.skips c)
  have hlenf : ((PyStr.sortBy (fun a b : Sim.SimCall => a.timestamp ≤ b.timestamp) calls).filter
      (fun c => !Sim.skips c)).length = (calls.filter (fun c => !Sim.skips c)).length :=
    hpermfilter.length_eq
  have hsumf : (((PyStr.sortBy (fun a b : Sim.SimCall => a.timestamp ≤ b.timestamp) calls).filter
        (fun c => !Sim.skips c)).map (fun c => budget / (calls.length : ℚ) * Sim.call_pct c)).sum =
      ((calls.filter (fun c => !Sim.skips c)).map
        (fun c => budget / (calls.length : ℚ) * Sim.call_pct c)).sum :=
    (hpermfilter.map _).sum_eq
  have hcore1 : (Sim.sim_core budget calls).1.length =
      (calls.filter (fun c => !Sim.skips c)).length := by
    unfold Sim.sim_core
    rw [spec.1, hlenf]
    simp
  have hcore2 : (Sim.sim_core budget calls).2 =
      budget + ((calls.filter (fun c => !Sim.skips c)).map
        (fun c => budget / (calls.length : ℚ) * Sim.call_pct c)).sum := by
    unfold Sim.sim_core
    rw [spec.2, hsumf]
  have hnm : (calls.filter (fun c => !Sim.skips c)).length =
      calls.length - (calls.filter Sim.skips).length := length_filter_not_eq _ _
  have hmle : (calls.filter Sim.skips).length ≤ calls.length := List.length_filter_le _ _
  refine ⟨?_, ?_, ?_⟩
  · rw [hcore1, hnm, hfe]
  · rw [hcore2, hfne]
  · have hcast : (((calls.length - (calls.filter Sim.skips).length : ℕ)) : ℚ) =
        (calls.length : ℚ) - ((calls.filter Sim.skips).length : ℚ) :=
      Nat.cast_sub hmle
    rw [hcore1, hnm, hfe, hcast]

/-- A double-hit call: target hit with `target_first` missing, stoploss hit
with both stoploss fields present. -/
def c10_cex_call : Sim.SimCall :=
  { timestamp := 0
    target_hit := some true
    stoploss_hit := some true
    assumed_entry_price := some 100
    target_first := none
    stoploss_price := some 90
    asset_symbol := none
    signal := "sell" }

/-- C10 counterexample: `c10_cex_call` falls in the claim's first skip
category (a target-hit call missing `target_first`), yet the code's `elif`
takes the stoploss branch and the call does contribute a chart row (and
changes the cumulative value: 1000 → 900). -/
theorem claim_C10_skipped_calls_counterexample :
    Sim.skip_claim c10_cex_call = true ∧
    (Sim.sim_core 1000 [c10_cex_call]).1.length = 1 ∧
    (Sim.sim_core 1000 [c10_cex_call]).2 = 900 := by
  refine ⟨by decide, by decide, by decide⟩

/-- A resolved target-hit call with complete price data (C10 witness). -/
def c10w_ok : Sim.SimCall :=
  { timestamp := 1
    target_hit := some true
    stoploss_hit := none
    assumed_entry_price := some 100
    target_first := some 110
    stoploss_price := none
    asset_symbol := none
    signal := "buy" }

/-- A resolved call with `target_hit=false` and no stoploss hit: skipped
but still counted in the denominator (C10 witness). -/
def c10w_skip : Sim.SimCall :=
  { timestamp := 2
    target_hit := some false
    stoploss_hit := some false
    assumed_entry_price := some 100
    target_first := some 110
    stoploss_price := none
    asset_symbol := none
    signal := "buy" }

/-- Witness for the amended C10 on a two-call period with one skipped call. -/
theorem claim_C10_skipped_calls_amended_witness :
    (∀ c ∈ [c10w_ok, c10w_skip], c.target_hit ≠ none) ∧
    (∀ c ∈ [c10w_ok, c10w_skip],
      ¬(c.target_hit.getD false = true ∧ c.stoploss_hit.getD false = true)) ∧
    ((Sim.sim_core 1000 [c10w_ok, c10w_skip]).1.length =
        [c10w_ok, c10w_skip].length -
          ([c10w_ok, c10w_skip].filter Sim.skip_claim).length ∧
     (Sim.sim_core 1000 [c10w_ok, c10w_skip]).2 =
        1000 + (([c10w_ok, c10w_skip].filter (fun c => !Sim.skip_claim c)).map
          (fun c => 1000 / (([c10w_ok, c10w_skip] : List Sim.SimCall).length : ℚ) *
            Sim.call_pct c)).sum ∧
     1000 / (([c10w_ok, c10w_skip] : List Sim.SimCall).length : ℚ) *
         (((Sim.sim_core 1000 [c10w_ok, c10w_skip]).1.length : ℚ)) =
        1000 / (([c10w_ok, c10w_skip] : List Sim.SimCall).length : ℚ) *
          ((([c10w_ok, c10w_skip] : List Sim.SimCall).length : ℚ) -
            (([c10w_ok, c10w_skip].filter Sim.skip_claim).length : ℚ))) :=
  ⟨by decide, by decide,
   claim_C10_skipped_calls_amended 1000 [c10w_ok, c10w_skip] (by decide) (by decide)⟩

/-- C2: for the async service, the spec's concrete scenario (valid
verification, confidence 80, matching 5000-follower counts, 800-day-old
verified account, engagement 4.0, Twitter, no risk penalties) scores above
70 and is auto-approved; and any verification reporting 100 actual
followers (below the 1000 floor) is never auto-approved, whatever the
score. -/
theorem claim_C2_async_gating :
    (∀ (sub : AutoApproval.Submission) (ver : AutoApproval.VerificationResult)
       (recent : ℕ),
       ver.is_valid = true →
       ver.confidence_score = 80 →
       ver.actual_followers = some 5000 →
       sub.follower_count = some 5000 →
       ver.account_age_days = some 800 →
       ver.is_verified = true →
       ver.engagement_rate = some 4 →
       sub.platform = "Twitter" →
       recent ≤ 3 →
       AutoApproval.is_suspicious_url sub.url = false →
       AutoApproval.has_naming_inconsistencies sub ver = false →
       70 < AutoApproval.calculate_approval_score sub ver recent ∧
       AutoApproval.should_auto_approve sub ver
         (AutoApproval.calculate_approval_score sub ver recent) = true) ∧
    (∀ (sub : AutoApproval.Submission) (ver : AutoApproval.VerificationResult)
       (score : ℤ),
       ver.actual_followers = some 100 →
       AutoApproval.should_auto_approve sub ver score = false) := by
  constructor
  · intro sub ver recent h1 h2 h3 h4 h5 h6 h7 h8 h9 h10 h11
    have hr : ¬(recent > 3) := by omega
    have hscore : AutoApproval.calculate_approval_score sub ver recent = 90 := by
      simp only [AutoApproval.calculate_approval_score,
        AutoApproval.calculate_follower_accuracy_score,
        AutoApproval.calculate_account_age_score,
        AutoApproval.calculate_engagement_score,
        AutoApproval.apply_risk_penalties, AutoApproval.truthyInt,
        AutoApproval.truthyRat, h1, h2, h3, h4, h5, h6, h7, h10, h11,
        Option.getD_some, if_neg hr]
      norm_num
    refine ⟨by rw [hscore]; norm_num, ?_⟩
    rw [hscore]
    simp only [AutoApproval.should_auto_approve,
      AutoApproval.platform_min_confidence, AutoApproval.MIN_CONFIDENCE_SCORE,
      AutoApproval.MIN_FOLLOWERS, AutoApproval.MAX_FOLLOWER_VARIANCE,
      AutoApproval.truthyInt, h1, h2, h3, h4, h8, Option.getD_some]
    norm_num
  · intro sub ver score h
    simp only [AutoApproval.should_auto_approve, AutoApproval.truthyInt,
      AutoApproval.MIN_CONFIDENCE_SCORE, AutoApproval.MIN_FOLLOWERS, h,
      Option.getD_some]
    split_ifs <;> simp_all

/-- Concrete submission for the C2 scenario. -/
def c2_sub : AutoApproval.Submission :=
  { follower_count := some 5000
    channel_name := "Alpha Calls"
    author_name := ""
    url := "https://twitter.com/alphacalls"
    platform := "Twitter" }

/-- Concrete verification result for the C2 scenario. -/
def c2_ver : AutoApproval.VerificationResult :=
  { is_valid := true
    actual_followers := some 5000
    actual_name := some "Alpha Calls"
    account_age_days := some 800
    is_verified := true
    engagement_rate := some 4
    error_message := none
    confidence_score := 80 }

/-- Verification with only 100 actual followers (below the floor). -/
def c2_ver_low : AutoApproval.VerificationResult :=
  { is_valid := true
    actual_followers := some 100
    actual_name := some "Alpha Calls"
    account_age_days := some 800
    is_verified := true
    engagement_rate := some 4
    error_message := none
    confidence_score := 80 }

/-- Witness for C2 at the concrete scenario (and the 100-follower variant). -/
theorem claim_C2_async_gating_witness :
    (c2_ver.is_valid = true ∧ c2_ver.confidence_score = 80 ∧
     c2_ver.actual_followers = some 5000 ∧ c2_sub.follower_count = some 5000 ∧
     c2_ver.account_age_days = some 800 ∧ c2_ver.is_verified = true ∧
     c2_ver.engagement_rate = some 4 ∧ c2_sub.platform = "Twitter" ∧
     (2 : ℕ) ≤ 3 ∧ AutoApproval.is_suspicious_url c2_sub.url = false ∧
     AutoApproval.has_naming_inconsistencies c2_sub c2_ver = false) ∧
    (70 < AutoApproval.calculate_approval_score c2_sub c2_ver 2 ∧
     AutoApproval.should_auto_approve c2_sub c2_ver
       (AutoApproval.calculate_approval_score c2_sub c2_ver 2) = true) ∧
    (c2_ver_low.actual_followers = some 100 ∧
     AutoApproval.should_auto_approve c2_sub c2_ver_low 90 = false) :=
  ⟨⟨rfl, rfl, rfl, rfl, rfl, rfl, rfl, rfl, by decide, by decide, by decide⟩,
   claim_C2_async_gating.1 c2_sub c2_ver 2 rfl rfl rfl rfl rfl rfl rfl rfl
     (by decide) (by decide) (by decide),
   rfl,
   claim_C2_async_gating.2 c2_sub c2_ver_low 90 rfl⟩

/-- C6: an item of the notifications feed is unread only if its timestamp is
within the last 24 hours and the user has no read-record for its ID; a
signal event older than 24 hours is never unread; a pending submission is
never unread regardless of age; and after a read-record exists for an ID,
the rebuilt feed shows that ID with `unread = false`. -/
theorem claim_C6_notifications_unread :
    (∀ (now : ℤ) (read_ids : List String) (calls : List Notif.NotiCall)
       (subs : List Notif.NotiSubmission) (limit : ℕ)
       (item : Notif.NotificationItem),
       item ∈ Notif.build_user_notifications now read_ids calls subs limit →
       item.unread = true →
       (now - 86400 ≤ item.timestamp ∧ read_ids.contains item.id = false) ∧
       (item.category = "submissions" →
         item.ntype = "success" ∨ item.ntype = "danger")) ∧
    (∀ (now : ℤ) (read_ids : List String) (call : Notif.NotiCall) (ts : ℤ),
       call.timestamp = some ts → ts < now - 86400 →
       (Notif.call_item now read_ids call).unread = false) ∧
    (∀ (now : ℤ) (read_ids : List String) (s : Notif.NotiSubmission),
       s.status = "pending" →
       (Notif.submission_item now read_ids s).unread = false) ∧
    (∀ (now : ℤ) (read_ids : List String) (calls : List Notif.NotiCall)
       (subs : List Notif.NotiSubmission) (limit : ℕ) (i : String)
       (item : Notif.NotificationItem),
       item ∈ Notif.build_user_notifications now (read_ids ++ [i]) calls subs limit →
       item.id = i → item.unread = false) := by
  refine ⟨?_, ?_, ?_, ?_⟩
  · intro now read_ids calls subs limit item hmem hun
    simp only [Notif.build_user_notifications] at hmem
    have hmem2 := ((sortBy_perm _ _).mem_iff).mp (List.take_subset _ _ hmem)
    rcases List.mem_append.mp hmem2 with h | h
    · obtain ⟨c, -, rfl⟩ := List.mem_map.mp h
      simp only [Notif.call_item] at hun ⊢
      rw [Bool.and_eq_true] at hun
      refine ⟨⟨of_decide_eq_true hun.1, by simpa using hun.2⟩, ?_⟩
      intro hcat
      exact absurd hcat (by decide)
    · obtain ⟨s, -, rfl⟩ := List.mem_map.mp h
      simp only [Notif.submission_item] at hun ⊢
      rw [Bool.and_eq_true, Bool.and_eq_true] at hun
      refine ⟨⟨of_decide_eq_true hun.1.1, by simpa using hun.2⟩, ?_⟩
      intro _
      have hst := hun.1.2
      rw [Bool.or_eq_true] at hst
      rcases hst with hst | hst
      · left
        simp [of_decide_eq_true hst]
      · right
        simp [of_decide_eq_true hst]
  · intro now read_ids call ts hts hlt
    simp only [Notif.call_item, hts, Option.getD_some]
    have hd : decide (ts ≥ now - 86400) = false := decide_eq_false (by omega)
    rw [hd, Bool.false_and]
  · intro now read_ids s hs
    simp [Notif.submission_item, hs]
  · intro now read_ids calls subs limit i item hmem hid
    simp only [Notif.build_user_notifications] at hmem
    have hmem2 := ((sortBy_perm _ _).mem_iff).mp (List.take_subset _ _ hmem)
    rcases List.mem_append.mp hmem2 with h | h
    · obtain ⟨c, -, rfl⟩ := List.mem_map.mp h
      simp only [Notif.call_item] at hid ⊢
      subst hid
      simp
    · obtain ⟨s, -, rfl⟩ := List.mem_map.mp h
      simp only [Notif.submission_item] at hid ⊢
      subst hid
      simp

/-- A watchlist signal event 200000−0 seconds old (C6 witness). -/
def c6w_stale : Notif.NotiCall :=
  { id := 5
    timestamp := some 0
    target_hit := some true
    stoploss_hit := none
    influencer_name := some "Alpha"
    asset_symbol := some "BTC" }

/-- A fresh watchlist signal event whose ID has been marked read (C6
witness). -/
def c6w_recent : Notif.NotiCall :=
  { id := 7
    timestamp := some 199999
    target_hit := some true
    stoploss_hit := none
    influencer_name := some "Alpha"
    asset_symbol := some "BTC" }

/-- A pending submission fresh enough to be in the unread window (C6
witness). -/
def c6w_pending : Notif.NotiSubmission :=
  { id := 3
    updated_at := some 199999
    created_at := none
    status := "pending"
    channel_name := "Chan"
    rejection_reason := "" }

/-- Witness for C6: a stale signal is not unread, a fresh pending submission
is not unread, and a read-marked ID rebuilds as not unread. -/
theorem claim_C6_notifications_unread_witness :
    (c6w_stale.timestamp = some 0 ∧ (0 : ℤ) < 200000 - 86400 ∧
     (Notif.call_item 200000 [] c6w_stale).unread = false) ∧
    (c6w_pending.status = "pending" ∧
     (Notif.submission_item 200000 [] c6w_pending).unread = false) ∧
    (Notif.call_item 200000 ([] ++ ["call-7"]) c6w_recent ∈
        Notif.build_user_notifications 200000 ([] ++ ["call-7"]) [c6w_recent] [] 15 ∧
     (Notif.call_item 200000 ([] ++ ["call-7"]) c6w_recent).id = "call-7" ∧
     (Notif.call_item 200000 ([] ++ ["call-7"]) c6w_recent).unread = false) :=
  ⟨⟨rfl, by decide,
    claim_C6_notifications_unread.2.1 200000 [] c6w_stale 0 rfl (by decide)⟩,
   ⟨rfl, claim_C6_notifications_unread.2.2.1 200000 [] c6w_pending rfl⟩,
   ⟨by decide, by decide,
    claim_C6_notifications_unread.2.2.2 200000 [] [c6w_recent] [] 15 "call-7" _
      (by decide) (by decide)⟩⟩

/-- C7: the search service sanitizes its inputs — a platform outside the
allow-list behaves exactly like an empty platform (the category passed
alongside is retained, since everything else is untouched), a category
outside the allow-list behaves like an empty category, a sort key outside
the four known ones behaves like `"relevance"`, and the effective
`page_size` is always clamped into `[6, 30]`. -/
theorem claim_C7_search_sanitization :
    (∀ (root : ℤ → ℚ) (db : List SearchSvc.SInfluencer)
       (query platform category sort_by : String) (page page_size : ℤ),
       SearchSvc.SUPPORTED_PLATFORM_VALUES.contains (PyStr.strip platform) = false →
       SearchSvc.perform_influencer_search root db query platform category
           sort_by page page_size =
         SearchSvc.perform_influencer_search root db query "" category
           sort_by page page_size) ∧
    (∀ (root : ℤ → ℚ) (db : List SearchSvc.SInfluencer)
       (query platform category sort_by : String) (page page_size : ℤ),
       SearchSvc.SUPPORTED_CATEGORY_VALUES.contains
           (PyStr.lower (PyStr.strip category)) = false →
       SearchSvc.perform_influencer_search root db query platform category
           sort_by page page_size =
         SearchSvc.perform_influencer_search root db query platform ""
           sort_by page page_size) ∧
    (∀ (root : ℤ → ℚ) (db : List SearchSvc.SInfluencer)
       (query platform category sort_by : String) (page page_size : ℤ),
       (["relevance", "accuracy", "calls", "name"] : List String).contains
           sort_by = false →
       SearchSvc.perform_influencer_search root db query platform category
           sort_by page page_size =
         SearchSvc.perform_influencer_search root db query platform category
           "relevance" page page_size) ∧
    (∀ (root : ℤ → ℚ) (db : List SearchSvc.SInfluencer)
       (query platform category sort_by : String) (page page_size : ℤ),
       6 ≤ (SearchSvc.perform_influencer_search root db query platform category
             sort_by page page_size).page_size ∧
       (SearchSvc.perform_influencer_search root db query platform category
             sort_by page page_size).page_size ≤ 30) := by
  refine ⟨?_, ?_, ?_, ?_⟩
  · intro root db query platform category sort_by page page_size h
    simp only [SearchSvc.perform_influencer_search, h]
    norm_num [show PyStr.strip "" = "" from rfl]
  · intro root db query platform category sort_by page page_size h
    simp only [SearchSvc.perform_influencer_search, h]
    norm_num [show PyStr.lower (PyStr.strip "") = "" from rfl]
  · intro root db query platform category sort_by page page_size h
    simp only [SearchSvc.perform_influencer_search, h]
    norm_num
  · intro root db query platform category sort_by page page_size
    simp only [SearchSvc.perform_influencer_search]
    constructor
    · exact le_max_left 6 _
    · rw [max_le_iff]
      refine ⟨by norm_num, ?_⟩
      exact le_trans (min_le_left 30 _) (le_refl 30)

/-- The constant-zero stand-in for the float root, used to instantiate
search witnesses. -/
def root0 : ℤ → ℚ := fun _ => 0

/-- Witness for C7 at concrete inputs: platform "bogus" with category
"crypto" equals the empty platform with the same category, category "weird"
is cleared, sort "hotness" falls back to relevance, and page sizes 1 and
1000 clamp into [6, 30]. -/
theorem claim_C7_search_sanitization_witness :
    (SearchSvc.SUPPORTED_PLATFORM_VALUES.contains (PyStr.strip "bogus") = false ∧
     SearchSvc.perform_influencer_search root0 [] "" "bogus" "crypto"
         "relevance" 1 12 =
       SearchSvc.perform_influencer_search root0 [] "" "" "crypto"
         "relevance" 1 12) ∧
    (SearchSvc.SUPPORTED_CATEGORY_VALUES.contains
         (PyStr.lower (PyStr.strip "weird")) = false ∧
     SearchSvc.perform_influencer_search root0 [] "" "" "weird"
         "relevance" 1 12 =
       SearchSvc.perform_influencer_search root0 [] "" "" ""
         "relevance" 1 12) ∧
    ((["relevance", "accuracy", "calls", "name"] : List String).contains
         "hotness" = false ∧
     SearchSvc.perform_influencer_search root0 [] "" "" "" "hotness" 1 12 =
       SearchSvc.perform_influencer_search root0 [] "" "" "" "relevance" 1 12) ∧
    (6 ≤ (SearchSvc.perform_influencer_search root0 [] "" "" "" "relevance"
           1 1).page_size ∧
     (SearchSvc.perform_influencer_search root0 [] "" "" "" "relevance"
           1 1).page_size ≤ 30) ∧
    (6 ≤ (SearchSvc.perform_influencer_search root0 [] "" "" "" "relevance"
           1 1000).page_size ∧
     (SearchSvc.perform_influencer_search root0 [] "" "" "" "relevance"
           1 1000).page_size ≤ 30) :=
  ⟨⟨by decide, claim_C7_search_sanitization.1 root0 [] "" "bogus" "crypto"
      "relevance" 1 12 (by decide)⟩,
   ⟨by decide, claim_C7_search_sanitization.2.1 root0 [] "" "" "weird"
      "relevance" 1 12 (by decide)⟩,
   ⟨by decide, claim_C7_search_sanitization.2.2.1 root0 [] "" "" "" "hotness"
      1 12 (by decide)⟩,
   claim_C7_search_sanitization.2.2.2 root0 [] "" "" "" "relevance" 1 1,
   claim_C7_search_sanitization.2.2.2 root0 [] "" "" "" "relevance" 1 1000⟩

set_option maxRecDepth 8000 in
/-- C3, evaluation at the failing input: for every value of the float root
parameter (which the `0 < successes < trials` branch never reads),
`clopper_pearson_interval(5, 10)` returns `(18.7, 26.2)` — the upper bound
is below the 50.0 point estimate, because `solve_upper` bisects
`BinomCDF(successes, trials, p)` against `1 − alpha/2` instead of
`alpha/2`, so it lands near the lower confidence bound of 6 successes
(≈ 26%) rather than the Clopper-Pearson upper bound (≈ 81.3%). -/
theorem claim_C3_upper_below_point_estimate (root : ℤ → ℚ) :
    Stats.clopper_pearson_interval root 5 10 = (187/10, 131/5) ∧
    (131 : ℚ)/5 < 50 := by
  have hu0 : (Stats.upperStep 5 10 (1/20))^[10] ((mkRat 0 1), (mkRat 1 1)) = ((mkRat 67 256), (mkRat 269 1024)) := by decide
  have hu1 : (Stats.upperStep 5 10 (1/20))^[10] ((mkRat 67 256), (mkRat 269 1024)) = ((mkRat 275123 1048576), (mkRat 68781 262144)) := by decide
  have hu2 : (Stats.upperStep 5 10 (1/20))^[10] ((mkRat 275123 1048576), (mkRat 68781 262144)) = ((mkRat 140863157 536870912), (mkRat 281726315 1073741824)) := by decide
  have hu3 : (Stats.upperStep 5 10 (1/20))^[10] ((mkRat 140863157 536870912), (mkRat 281726315 1073741824)) = ((mkRat 144243873051 549755813888), (mkRat 288487746103 1099511627776)) := by decide
  have hu4 : (Stats.upperStep 5 10 (1/20))^[10] ((mkRat 144243873051 549755813888), (mkRat 288487746103 1099511627776)) = ((mkRat 147705726004653 562949953421312), (mkRat 295411452009307 1125899906842624)) := by decide
  have hu5 : (Stats.upperStep 5 10 (1/20))^[10] ((mkRat 147705726004653 562949953421312), (mkRat 295411452009307 1125899906842624)) = ((mkRat 151250663428764837 576460752303423488), (mkRat 302501326857529675 1152921504606846976)) := by decide
  have hl0 : (Stats.lowerStep 5 10 (1/20))^[10] ((mkRat 0 1), (mkRat 1 1)) = ((mkRat 191 1024), (mkRat 3 16)) := by decide
  have hl1 : (Stats.lowerStep 5 10 (1/20))^[10] ((mkRat 191 1024), (mkRat 3 16)) = ((mkRat 196173 1048576), (mkRat 98087 524288)) := by decide
  have hl2 : (Stats.lowerStep 5 10 (1/20))^[10] ((mkRat 196173 1048576), (mkRat 98087 524288)) = ((mkRat 200882093 1073741824), (mkRat 100441047 536870912)) := by decide
  have hl3 : (Stats.lowerStep 5 10 (1/20))^[10] ((mkRat 200882093 1073741824), (mkRat 100441047 536870912)) = ((mkRat 25712907959 137438953472), (mkRat 205703263673 1099511627776)) := by decide
  have hl4 : (Stats.lowerStep 5 10 (1/20))^[10] ((mkRat 25712907959 137438953472), (mkRat 205703263673 1099511627776)) = ((mkRat 105320071000241 562949953421312), (mkRat 210640142000483 1125899906842624)) := by decide
  have hl5 : (Stats.lowerStep 5 10 (1/20))^[10] ((mkRat 105320071000241 562949953421312), (mkRat 210640142000483 1125899906842624)) = ((mkRat 107847752704247045 576460752303423488), (mkRat 215695505408494091 1152921504606846976)) := by decide
  have he : (60 : ℕ) = 10 + (10 + (10 + (10 + (10 + 10)))) := rfl
  have hstart : ((0 : ℚ), (1 : ℚ)) = ((mkRat 0 1 : ℚ), (mkRat 1 1 : ℚ)) := by decide
  have hupper : Stats.solve_upper 5 10 (1/20) = mkRat 151250663428764837 576460752303423488 := by
    unfold Stats.solve_upper
    rw [he, Function.iterate_add_apply, Function.iterate_add_apply,
      Function.iterate_add_apply, Function.iterate_add_apply,
      Function.iterate_add_apply, hstart, hu0, hu1, hu2, hu3, hu4, hu5]
  have hlower : Stats.solve_lower 5 10 (1/20) = mkRat 215695505408494091 1152921504606846976 := by
    unfold Stats.solve_lower
    rw [he, Function.iterate_add_apply, Function.iterate_add_apply,
      Function.iterate_add_apply, Function.iterate_add_apply,
      Function.iterate_add_apply, hstart, hl0, hl1, hl2, hl3, hl4, hl5]
  have hbranch : Stats.clopper_pearson_interval root 5 10 =
      (Stats.pyRound (Stats.solve_lower 5 10 (1/20) * 100) 1,
       Stats.pyRound (Stats.solve_upper 5 10 (1/20) * 100) 1) := by
    unfold Stats.clopper_pearson_interval
    norm_num
  rw [hbranch, hupper, hlower]
  refine ⟨by decide, by norm_num⟩

/-- The PMF recurrence of `binom_cdf` builds exactly the binomial terms:
after `m` steps, `prob = C(n,m) p^m (1-p)^(n-m)` and `cdf` is the partial
sum up to `m`. -/
theorem binomLoop_spec (n : ℕ) (p : ℚ) (hp1 : p ≠ 1) :
    ∀ m, m ≤ n →
      (Stats.binomLoop n p m).1 =
          (n.choose m : ℚ) * p ^ m * (1 - p) ^ (n - m) ∧
      (Stats.binomLoop n p m).2 =
          ∑ i ∈ Finset.range (m + 1),
            (n.choose i : ℚ) * p ^ i * (1 - p) ^ (n - i) := by
  intro m
  induction m with
  | zero =>
    intro _
    constructor
    · simp [Stats.binomLoop]
    · simp [Stats.binomLoop]
  | succ m ih =>
    intro hm
    obtain ⟨ih1, ih2⟩ := ih (Nat.le_of_succ_le hm)
    have h1 : (1 : ℚ) - p ≠ 0 := sub_ne_zero.mpr (Ne.symm hp1)
    have h2 : ((m : ℚ) + 1) ≠ 0 := by positivity
    have hcast : (n : ℚ) - ((m : ℚ) + 1) + 1 = ((n - m : ℕ) : ℚ) := by
      rw [Nat.cast_sub (Nat.le_of_succ_le hm)]
      ring
    have hchoose : (n.choose (m + 1) : ℚ) * ((m : ℚ) + 1) =
        (n.choose m : ℚ) * ((n - m : ℕ) : ℚ) := by
      exact_mod_cast congrArg (fun t : ℕ => (t : ℚ)) (Nat.choose_succ_right_eq n m)
    have hpow : (1 - p) ^ (n - m) = (1 - p) ^ (n - (m + 1)) * (1 - p) := by
      rw [← pow_succ]
      congr 1
      omega
    have hkey : (n.choose (m + 1) : ℚ) =
        (n.choose m : ℚ) * ((n - m : ℕ) : ℚ) / ((m : ℚ) + 1) := by
      rw [eq_div_iff h2]
      exact hchoose
    have halg : (n.choose m : ℚ) * p ^ m * (1 - p) ^ (n - m) * (p / (1 - p)) *
          ((n : ℚ) - ((m : ℚ) + 1) + 1) / ((m : ℚ) + 1) =
        (n.choose (m + 1) : ℚ) * p ^ (m + 1) * (1 - p) ^ (n - (m + 1)) := by
      rw [hcast, hpow, hkey]
      field_simp
      ring
    constructor
    · simp only [Stats.binomLoop]
      rw [ih1]
      exact halg
    · simp only [Stats.binomLoop]
      rw [ih1, ih2, halg]
      exact (Finset.sum_range_succ
        (fun i => ((n.choose i : ℚ)) * p ^ i * (1 - p) ^ (n - i)) (m + 1)).symm

/-- C5 counterexample: `binom_cdf(0, 5, 0)` returns 1.0, not 0.0 — for
`0 ≤ k < n` the `p ≤ 0` branch returns 1.0 (the correct CDF value), the
claim's `p ≤ 0 → 0.0` is wrong. -/
theorem claim_C5_binom_cdf_counterexample :
    Stats.binom_cdf 0 5 0 = 1 ∧ ¬(Stats.binom_cdf 0 5 0 = 0) := by
  constructor
  · decide
  · decide

/-- C5 amended, the exact branch semantics of `binom_cdf`: 0.0 for `k < 0`;
1.0 for `0 ≤ k` with `k ≥ n`; 1.0 (not 0.0) for `p ≤ 0` when `0 ≤ k < n`;
0.0 for `p ≥ 1` when `0 ≤ k < n`; and for `0 < p < 1` with `0 ≤ k < n` the
recurrence-built PMF sum `Σ_{i=0..k} C(n,i) p^i (1-p)^(n-i)` clamped to
`[0, 1]`. -/
theorem claim_C5_binom_cdf_amended :
    (∀ (k n : ℤ) (p : ℚ), k < 0 → Stats.binom_cdf k n p = 0) ∧
    (∀ (k n : ℤ) (p : ℚ), 0 ≤ k → n ≤ k → Stats.binom_cdf k n p = 1) ∧
    (∀ (k n : ℤ) (p : ℚ), 0 ≤ k → k < n → p ≤ 0 → Stats.binom_cdf k n p = 1) ∧
    (∀ (k n : ℤ) (p : ℚ), 0 ≤ k → k < n → 1 ≤ p → Stats.binom_cdf k n p = 0) ∧
    (∀ (k n : ℤ) (p : ℚ), 0 ≤ k → k < n → 0 < p → p < 1 →
       Stats.binom_cdf k n p =
         min (max (∑ i ∈ Finset.range (k.toNat + 1),
           (n.toNat.choose i : ℚ) * p ^ i * (1 - p) ^ (n.toNat - i)) 0) 1) := by
  refine ⟨?_, ?_, ?_, ?_, ?_⟩
  · intro k n p hk
    unfold Stats.binom_cdf
    rw [if_pos hk]
  · intro k n p hk hn
    unfold Stats.binom_cdf
    rw [if_neg (by omega), if_pos hn]
  · intro k n p hk hkn hp
    unfold Stats.binom_cdf
    rw [if_neg (by omega), if_neg (by omega), if_pos hp]
  · intro k n p hk hkn hp
    unfold Stats.binom_cdf
    rw [if_neg (by omega), if_neg (by omega), if_neg (by linarith), if_pos hp]
  · intro k n p hk hkn hp0 hp1
    unfold Stats.binom_cdf
    rw [if_neg (by omega), if_neg (by omega), if_neg (by linarith),
      if_neg (by linarith)]
    rw [(binomLoop_spec n.toNat p (ne_of_lt hp1) k.toNat (by omega)).2]

/-- Witness for the amended C5 at `k = 1`, `n = 3`, `p = 1/2`, where both
sides evaluate to 1/2. -/
theorem claim_C5_binom_cdf_amended_witness :
    ((0 : ℤ) ≤ 1 ∧ (1 : ℤ) < 3 ∧ (0 : ℚ) < 1/2 ∧ (1 : ℚ)/2 < 1) ∧
    Stats.binom_cdf 1 3 (1/2) =
      min (max (∑ i ∈ Finset.range ((1 : ℤ).toNat + 1),
        ((3 : ℤ).toNat.choose i : ℚ) * (1/2) ^ i * (1 - 1/2) ^ ((3 : ℤ).toNat - i)) 0) 1 ∧
    Stats.binom_cdf 1 3 (1/2) = 1/2 :=
  ⟨⟨by norm_num, by norm_num, by norm_num, by norm_num⟩,
   claim_C5_binom_cdf_amended.2.2.2.2 1 3 (1/2) (by norm_num) (by norm_num)
     (by norm_num) (by norm_num),
   by decide⟩
